import Mathlib

/-!
Verification development for the tcspecial repository: a shallow embedding of
the command interpreter (CI), data-handler (DH) registry, relay/conduit loop,
endpoints and beacon driver, together with theorems checking the
natural-language specification against the code.

Source files embedded:
- src/tcslibgs/src/types.rs      (Timestamp, Statistics, DHType, BeaconTime)
- src/tcslibgs/src/error.rs      (TcsError, to_error_code)
- src/tcslibgs/src/telemetry.rs  (telemetry records, Telemetry.sequence)
- src/tcsspecial/src/ci.rs       (CommandInterpreter: run loop, process_command,
                                  handle_restart / handle_restart_arm / handle_config / ...)
- src/tcsspecial/src/dh.rs       (DataHandler, DHManager)
- src/tcsspecial/src/config.rs   (TcspecialConfig, DHConfig)
- src/tcspecial/src/conduit.rs   (Conduit relay loop body)
- src/tcspecial/src/endpoint.rs  (UdpEndpoint, TcpEndpoint, DeviceEndpoint read/write)
- src/tcspecial/src/relay.rs     (Relay used by tcsspecial's DataHandler)
- src/tcspecial/src/beacon_send.rs (BeaconSend.set_interval)

Machine integers (u32/u64 counters, sequence numbers) are modelled as Nat:
none of the verified properties exercises wrap-around. Instants and SystemTime
are modelled as Nat milliseconds. OS effects (socket creation, pipe(2), poll,
read/write syscalls, thread joins) are passed in as explicit oracle values so
every definition stays executable.
-/

namespace Tcs

/-! Core wire/data types, from src/tcslibgs/src/types.rs. -/

/-- Timestamp (seconds, nanoseconds), src/tcslibgs/src/types.rs lines 7-30. -/
structure Timestamp where
  seconds : Nat
  nanoseconds : Nat
deriving Repr, DecidableEq

/-- DH type, src/tcslibgs/src/types.rs lines 53-59. -/
inductive DHType where
  | Network
  | Device
deriving Repr, DecidableEq

/-- I/O statistics, src/tcslibgs/src/types.rs lines 82-109. Counters are u64
in the source; modelled as Nat (wrap-around is not exercised by any claim). -/
structure Statistics where
  timestamp : Option Timestamp
  bytes_received : Nat
  reads_completed : Nat
  reads_failed : Nat
  bytes_sent : Nat
  writes_completed : Nat
  writes_failed : Nat
deriving Repr, DecidableEq

/-- Statistics::new (= Default::default), src/tcslibgs/src/types.rs line 101. -/
def Statistics.new : Statistics :=
  { timestamp := none, bytes_received := 0, reads_completed := 0, reads_failed := 0
    bytes_sent := 0, writes_completed := 0, writes_failed := 0 }

/-- Statistics::with_timestamp, src/tcslibgs/src/types.rs lines 105-108; the
Timestamp::now() value is passed in explicitly. -/
def Statistics.with_timestamp (s : Statistics) (now : Timestamp) : Statistics :=
  { s with timestamp := some now }

/-- Error codes surfaced to ground. Modelled from the spec: `ErrorCode` is
referenced by src/tcslibgs/src/error.rs and by src/tcsspecial, but its enum
definition is not among the source files; spec section 4.A lists exactly these
variants. -/
inductive ErrorCode where
  | Unknown
  | InvalidCommand
  | DHNotFound
  | DHAlreadyExists
  | InvalidArmKey
  | RestartNotArmed
  | ArmWindowExpired
  | ResourceAllocationFailed
  | InvalidConfiguration
  | IoError
deriving Repr, DecidableEq

/-- Kind of an underlying std::io::Error, as discriminated by the source
(`e.kind() == ErrorKind::WouldBlock`, etc.). -/
inductive IoErrorKind where
  | wouldBlock
  | timedOut
  | other
deriving Repr, DecidableEq

/-- TcsError, src/tcslibgs/src/error.rs lines 8-38. The io variant keeps the
kind of the wrapped std::io::Error; message strings are kept where the source
builds them. -/
inductive TcsError where
  | io (kind : IoErrorKind)
  | serialization
  | protocol (msg : String)
  | dataHandler (msg : String)
  | command (code : ErrorCode) (message : String)
  | configuration (msg : String)
  | resourceAllocation (msg : String)
  | timeout
  | connectionClosed
  | invalidState (msg : String)
deriving Repr, DecidableEq

/-- TcsError::to_error_code, src/tcslibgs/src/error.rs lines 69-82. -/
def TcsError.to_error_code : TcsError → ErrorCode
  | .io _ => .IoError
  | .serialization => .InvalidCommand
  | .protocol _ => .InvalidCommand
  | .dataHandler _ => .DHNotFound
  | .command code _ => code
  | .configuration _ => .InvalidConfiguration
  | .resourceAllocation _ => .ResourceAllocationFailed
  | .timeout => .IoError
  | .connectionClosed => .IoError
  | .invalidState _ => .Unknown

/-- Modelled from the spec: the reply status carried by every telemetry reply.
The `CommandStatus` type named by src/tcslibgs/src/telemetry.rs is not among
the source files; spec section 4.A gives status = Success | Failure(ErrorCode),
which is the form src/tcsspecial/src/ci.rs uses (success / failure(code)
constructors). -/
inductive ReplyStatus where
  | success
  | failure (code : ErrorCode)
deriving Repr, DecidableEq

/-! Telemetry records, from src/tcslibgs/src/telemetry.rs. -/

/-- Telemetry type tags, src/tcslibgs/src/telemetry.rs lines 21-31. -/
inductive TelemetryType where
  | Ping
  | RestartArm
  | Restart
  | StartDH
  | StopDH
  | QueryDH
  | Config
  | ConfigDH
  | Beacon
deriving Repr, DecidableEq

/-- Telemetry header, src/tcslibgs/src/telemetry.rs lines 10-17, with the
spec-form status (see ReplyStatus). -/
structure TelemetryHeader where
  sequence : Nat
  tm_type : TelemetryType
  status : ReplyStatus
deriving Repr, DecidableEq

/-- PING reply, src/tcslibgs/src/telemetry.rs lines 66-82. The constructor's
internal Timestamp::now() is passed in explicitly. -/
structure PingTelemetry where
  header : TelemetryHeader
  timestamp : Timestamp
deriving Repr, DecidableEq

def PingTelemetry.new (sequence : Nat) (status : ReplyStatus) (now : Timestamp) : PingTelemetry :=
  { header := { sequence := sequence, tm_type := .Ping, status := status }, timestamp := now }

/-- RESTART_ARM reply, src/tcslibgs/src/telemetry.rs lines 86-100. -/
structure RestartArmTelemetry where
  header : TelemetryHeader
deriving Repr, DecidableEq

def RestartArmTelemetry.new (sequence : Nat) (status : ReplyStatus) : RestartArmTelemetry :=
  { header := { sequence := sequence, tm_type := .RestartArm, status := status } }

/-- Modelled from the spec: the success constructor used by
src/tcsspecial/src/ci.rs is not among the source files; per spec section 4.A
each reply carries the seq echoed from its command plus status Success. -/
def RestartArmTelemetry.success (sequence : Nat) : RestartArmTelemetry :=
  RestartArmTelemetry.new sequence .success

/-- RESTART reply, src/tcslibgs/src/telemetry.rs lines 104-118. -/
structure RestartTelemetry where
  header : TelemetryHeader
deriving Repr, DecidableEq

def RestartTelemetry.new (sequence : Nat) (status : ReplyStatus) : RestartTelemetry :=
  { header := { sequence := sequence, tm_type := .Restart, status := status } }

/-- Modelled from the spec: success/failure constructors used by
src/tcsspecial/src/ci.rs (seq echoed, Success or Failure(code)). -/
def RestartTelemetry.success (sequence : Nat) : RestartTelemetry :=
  RestartTelemetry.new sequence .success

def RestartTelemetry.failure (sequence : Nat) (code : ErrorCode) : RestartTelemetry :=
  RestartTelemetry.new sequence (.failure code)

/-- START_DH reply, src/tcslibgs/src/telemetry.rs lines 122-136. -/
structure StartDHTelemetry where
  header : TelemetryHeader
deriving Repr, DecidableEq

def StartDHTelemetry.new (sequence : Nat) (status : ReplyStatus) : StartDHTelemetry :=
  { header := { sequence := sequence, tm_type := .StartDH, status := status } }

/-- Modelled from the spec: success/failure constructors used by
src/tcsspecial/src/ci.rs. -/
def StartDHTelemetry.success (sequence : Nat) : StartDHTelemetry :=
  StartDHTelemetry.new sequence .success

def StartDHTelemetry.failure (sequence : Nat) (code : ErrorCode) : StartDHTelemetry :=
  StartDHTelemetry.new sequence (.failure code)

/-- STOP_DH reply, src/tcslibgs/src/telemetry.rs lines 140-154. -/
structure StopDHTelemetry where
  header : TelemetryHeader
deriving Repr, DecidableEq

def StopDHTelemetry.new (sequence : Nat) (status : ReplyStatus) : StopDHTelemetry :=
  { header := { sequence := sequence, tm_type := .StopDH, status := status } }

/-- Modelled from the spec: success/failure constructors used by
src/tcsspecial/src/ci.rs. -/
def StopDHTelemetry.success (sequence : Nat) : StopDHTelemetry :=
  StopDHTelemetry.new sequence .success

def StopDHTelemetry.failure (sequence : Nat) (code : ErrorCode) : StopDHTelemetry :=
  StopDHTelemetry.new sequence (.failure code)

/-- QUERY_DH reply, src/tcslibgs/src/telemetry.rs lines 158-176, in the shape
consumed by src/tcsspecial/src/ci.rs (header plus Statistics; the dh_id field
of the tcslibgs copy is not passed by the tcsspecial constructors and no claim
reads it, so it is omitted here). -/
structure QueryDHTelemetry where
  header : TelemetryHeader
  statistics : Statistics
deriving Repr, DecidableEq

/-- Modelled from the spec: success/failure constructors used by
src/tcsspecial/src/ci.rs; per spec, command 6's reply carries Statistics on
Success and an empty Statistics on failure. -/
def QueryDHTelemetry.success (sequence : Nat) (stats : Statistics) : QueryDHTelemetry :=
  { header := { sequence := sequence, tm_type := .QueryDH, status := .success }
    statistics := stats }

def QueryDHTelemetry.failure (sequence : Nat) (code : ErrorCode) : QueryDHTelemetry :=
  { header := { sequence := sequence, tm_type := .QueryDH, status := .failure code }
    statistics := Statistics.new }

/-- CONFIG reply, src/tcslibgs/src/telemetry.rs lines 180-194. -/
structure ConfigTelemetry where
  header : TelemetryHeader
deriving Repr, DecidableEq

def ConfigTelemetry.new (sequence : Nat) (status : ReplyStatus) : ConfigTelemetry :=
  { header := { sequence := sequence, tm_type := .Config, status := status } }

/-- Modelled from the spec: success constructor used by src/tcsspecial/src/ci.rs. -/
def ConfigTelemetry.success (sequence : Nat) : ConfigTelemetry :=
  ConfigTelemetry.new sequence .success

/-- CONFIG_DH reply, src/tcslibgs/src/telemetry.rs lines 198-212. -/
structure ConfigDHTelemetry where
  header : TelemetryHeader
deriving Repr, DecidableEq

def ConfigDHTelemetry.new (sequence : Nat) (status : ReplyStatus) : ConfigDHTelemetry :=
  { header := { sequence := sequence, tm_type := .ConfigDH, status := status } }

/-- Modelled from the spec: success constructor used by src/tcsspecial/src/ci.rs. -/
def ConfigDHTelemetry.success (sequence : Nat) : ConfigDHTelemetry :=
  ConfigDHTelemetry.new sequence .success

/-- BEACON telemetry, src/tcslibgs/src/telemetry.rs lines 216-232; its
constructor uses sequence 0, Success, Timestamp::now() (passed in). -/
structure BeaconTelemetry where
  header : TelemetryHeader
  timestamp : Timestamp
deriving Repr, DecidableEq

def BeaconTelemetry.new (now : Timestamp) : BeaconTelemetry :=
  { header := { sequence := 0, tm_type := .Beacon, status := .success }, timestamp := now }

/-- Union of telemetry messages, src/tcslibgs/src/telemetry.rs lines 242-252. -/
inductive Telemetry where
  | Ping (tm : PingTelemetry)
  | RestartArm (tm : RestartArmTelemetry)
  | Restart (tm : RestartTelemetry)
  | StartDH (tm : StartDHTelemetry)
  | StopDH (tm : StopDHTelemetry)
  | QueryDH (tm : QueryDHTelemetry)
  | Config (tm : ConfigTelemetry)
  | ConfigDH (tm : ConfigDHTelemetry)
  | Beacon (tm : BeaconTelemetry)
deriving Repr, DecidableEq

/-- Telemetry::sequence, src/tcslibgs/src/telemetry.rs lines 254-267. -/
def Telemetry.sequence : Telemetry → Nat
  | .Ping tm => tm.header.sequence
  | .RestartArm tm => tm.header.sequence
  | .Restart tm => tm.header.sequence
  | .StartDH tm => tm.header.sequence
  | .StopDH tm => tm.header.sequence
  | .QueryDH tm => tm.header.sequence
  | .Config tm => tm.header.sequence
  | .ConfigDH tm => tm.header.sequence
  | .Beacon tm => tm.header.sequence

/-- Telemetry::status, src/tcslibgs/src/telemetry.rs lines 283-295 (status in
the spec form, see ReplyStatus). -/
def Telemetry.status : Telemetry → ReplyStatus
  | .Ping tm => tm.header.status
  | .RestartArm tm => tm.header.status
  | .Restart tm => tm.header.status
  | .StartDH tm => tm.header.status
  | .StopDH tm => tm.header.status
  | .QueryDH tm => tm.header.status
  | .Config tm => tm.header.status
  | .ConfigDH tm => tm.header.status
  | .Beacon tm => tm.header.status

/-! Commands as consumed by src/tcsspecial/src/ci.rs. Modelled from the spec:
the command structs of the tcslibgs copy under src/ carry a header and a
non-optional beacon_interval, while src/tcsspecial/src/ci.rs reads
`cmd.sequence`, `cmd.arm_key`, `cmd.dh_id`, `cmd.dh_type`, `cmd.name` and an
optional `cmd.beacon_interval`; the spec's tag table (section 4.A) fixes the
fields used here (Config carries `beacon_interval: optional BeaconTime`). -/

structure PingCommand where
  sequence : Nat
deriving Repr, DecidableEq

structure RestartArmCommand where
  sequence : Nat
  arm_key : Nat
deriving Repr, DecidableEq

structure RestartCommand where
  sequence : Nat
  arm_key : Nat
deriving Repr, DecidableEq

structure StartDHCommand where
  sequence : Nat
  dh_id : Nat
  dh_type : DHType
  name : String
deriving Repr, DecidableEq

structure StopDHCommand where
  sequence : Nat
  dh_id : Nat
deriving Repr, DecidableEq

structure QueryDHCommand where
  sequence : Nat
  dh_id : Nat
deriving Repr, DecidableEq

structure ConfigCommand where
  sequence : Nat
  beacon_interval : Option Nat
deriving Repr, DecidableEq

structure ConfigDHCommand where
  sequence : Nat
  dh_id : Nat
deriving Repr, DecidableEq

/-- Union of commands, src/tcslibgs/src/commands.rs lines 216-225. -/
inductive Command where
  | Ping (cmd : PingCommand)
  | RestartArm (cmd : RestartArmCommand)
  | Restart (cmd : RestartCommand)
  | StartDH (cmd : StartDHCommand)
  | StopDH (cmd : StopDHCommand)
  | QueryDH (cmd : QueryDHCommand)
  | Config (cmd : ConfigCommand)
  | ConfigDH (cmd : ConfigDHCommand)
deriving Repr, DecidableEq

/-- Command::sequence, src/tcslibgs/src/commands.rs lines 228-239. -/
def Command.sequence : Command → Nat
  | .Ping cmd => cmd.sequence
  | .RestartArm cmd => cmd.sequence
  | .Restart cmd => cmd.sequence
  | .StartDH cmd => cmd.sequence
  | .StopDH cmd => cmd.sequence
  | .QueryDH cmd => cmd.sequence
  | .Config cmd => cmd.sequence
  | .ConfigDH cmd => cmd.sequence

/-! Endpoints, from src/tcspecial/src/endpoint.rs. Each read/write wraps one
non-blocking syscall whose outcome is passed in as an oracle. -/

/-- Result of waiting for an event, src/tcspecial/src/endpoint.rs lines 26-38. -/
inductive WaitResult where
  | IoReady
  | CommandPending
  | Both
  | Timeout
  | Error
deriving Repr, DecidableEq

/-- Outcome of the underlying std read/write/recv/send call: Ok(n), or an
error of the given kind (WouldBlock is one of the error kinds). -/
inductive IoOutcome where
  | ok (n : Nat)
  | err (kind : IoErrorKind)
deriving Repr, DecidableEq

/-- UdpEndpoint read, src/tcspecial/src/endpoint.rs lines 113-121:
WouldBlock is translated to Ok(0), other errors to Err(TcsError::Io). -/
def UdpEndpoint.read : IoOutcome → Except TcsError Nat
  | .ok n => .ok n
  | .err .wouldBlock => .ok 0
  | .err k => .error (.io k)

/-- UdpEndpoint write, src/tcspecial/src/endpoint.rs lines 123-131. -/
def UdpEndpoint.write : IoOutcome → Except TcsError Nat
  | .ok n => .ok n
  | .err .wouldBlock => .ok 0
  | .err k => .error (.io k)

/-- TcpEndpoint read, src/tcspecial/src/endpoint.rs lines 205-217:
with no connected stream the call returns Ok(0); otherwise WouldBlock is
translated to Ok(0) and other errors to Err(TcsError::Io). -/
def TcpEndpoint.read (hasStream : Bool) : IoOutcome → Except TcsError Nat
  | .ok n => if hasStream then .ok n else .ok 0
  | .err .wouldBlock => if hasStream then .ok 0 else .ok 0
  | .err k => if hasStream then .error (.io k) else .ok 0

/-- TcpEndpoint write, src/tcspecial/src/endpoint.rs lines 219-231. -/
def TcpEndpoint.write (hasStream : Bool) : IoOutcome → Except TcsError Nat
  | .ok n => if hasStream then .ok n else .ok 0
  | .err .wouldBlock => if hasStream then .ok 0 else .ok 0
  | .err k => if hasStream then .error (.io k) else .ok 0

/-- DeviceEndpoint read, src/tcspecial/src/endpoint.rs lines 263-269:
every error, WouldBlock included, is returned as Err(TcsError::Io). -/
def DeviceEndpoint.read : IoOutcome → Except TcsError Nat
  | .ok n => .ok n
  | .err k => .error (.io k)

/-- DeviceEndpoint write, src/tcspecial/src/endpoint.rs lines 272-279. -/
def DeviceEndpoint.write : IoOutcome → Except TcsError Nat
  | .ok n => .ok n
  | .err k => .error (.io k)

/-! Conduit relay loop, from src/tcspecial/src/conduit.rs lines 68-118.
One iteration of the spawned thread's while-loop body is embedded as a step
function over an environment of oracle values: the wait outcome, the byte
obtained from the command pipe, the reader.read result (a byte chunk, so that
delivery can be compared against what was read) and the writer.write result. -/

instance exceptDecEq {e a : Type} [DecidableEq e] [DecidableEq a] :
    DecidableEq (Except e a) := fun x y =>
  match x, y with
  | .ok u, .ok v =>
    if h : u = v then isTrue (by rw [h]) else isFalse (by intro hc; cases hc; exact h rfl)
  | .error u, .error v =>
    if h : u = v then isTrue (by rw [h]) else isFalse (by intro hc; cases hc; exact h rfl)
  | .ok _, .error _ => isFalse (by intro hc; cases hc)
  | .error _, .ok _ => isFalse (by intro hc; cases hc)

/-- Environment of one conduit loop iteration. `read` gives the bytes the
reader.read call fills into the buffer (empty list = Ok(0) spurious wake) or
its error; `write` gives the result of the single writer.write(&buffer[..n])
call made when the read returned a non-empty chunk. -/
structure ConduitEnv where
  wait : Except TcsError WaitResult
  cmd_byte : Nat
  read : Except TcsError (List Nat)
  write : Except TcsError Nat
deriving Repr, DecidableEq

/-- Whether the loop body falls through to the next iteration or breaks. -/
inductive ConduitControl where
  | next
  | brk
deriving Repr, DecidableEq

/-- Result of one conduit loop iteration: updated statistics, loop control,
and the write calls performed (payload passed to writer.write, with result). -/
structure ConduitStepResult where
  stats : Statistics
  control : ConduitControl
  writes : List (List Nat × Except TcsError Nat)
deriving Repr, DecidableEq

/-- One iteration of the conduit relay loop body,
src/tcspecial/src/conduit.rs lines 72-115. CommandPending and Both read one
byte from the command pipe and break iff it is 0; IoReady reads, counts, and
performs exactly one write of the full chunk; Timeout continues; a wait Error
or wait failure breaks. -/
def conduitStep (env : ConduitEnv) (stats : Statistics) : ConduitStepResult :=
  match env.wait with
  | .error _ => { stats := stats, control := .brk, writes := [] }
  | .ok w =>
    match w with
    | .CommandPending | .Both =>
      if env.cmd_byte = 0 then
        { stats := stats, control := .brk, writes := [] }
      else
        { stats := stats, control := .next, writes := [] }
    | .IoReady =>
      match env.read with
      | .ok [] => { stats := stats, control := .next, writes := [] }
      | .ok chunk =>
        let stats1 := { stats with
          bytes_received := stats.bytes_received + chunk.length
          reads_completed := stats.reads_completed + 1 }
        match env.write with
        | .ok written =>
          { stats := { stats1 with
              bytes_sent := stats1.bytes_sent + written
              writes_completed := stats1.writes_completed + 1 }
            control := .next
            writes := [(chunk, .ok written)] }
        | .error e =>
          { stats := { stats1 with writes_failed := stats1.writes_failed + 1 }
            control := .next
            writes := [(chunk, .error e)] }
      | .error _ =>
        { stats := { stats with reads_failed := stats.reads_failed + 1 }
          control := .next
          writes := [] }
    | .Timeout => { stats := stats, control := .next, writes := [] }
    | .Error => { stats := stats, control := .brk, writes := [] }

/-- Total number of bytes a list of write calls reports as written. -/
def writtenTotal (ws : List (List Nat × Except TcsError Nat)) : Nat :=
  (ws.map (fun w => match w.2 with | .ok n => n | .error _ => 0)).sum

/-- Whether some write call in the list reported an error. -/
def anyWriteErr (ws : List (List Nat × Except TcsError Nat)) : Bool :=
  ws.any (fun w => match w.2 with | .ok _ => false | .error _ => true)

/-! Beacon driver, from src/tcspecial/src/beacon_send.rs. The condition
variable / mutex pair is modelled as plain state: `expiration` is the
SystemTime behind pair.lock (milliseconds), `notified` records a pending
notify_one on the condition variable. -/

structure BeaconSend where
  expiration : Nat
  interval : Nat
  dest_addr : Nat
  notified : Bool
deriving Repr, DecidableEq

/-- BeaconSend::set_interval, src/tcspecial/src/beacon_send.rs lines 100-113:
a zero interval is ignored; otherwise the interval is replaced, the expiration
is set to now (triggering an immediate beacon) and the worker is woken. -/
def BeaconSend.set_interval (b : BeaconSend) (interval : Nat) (now : Nat) : BeaconSend :=
  if interval = 0 then b
  else { b with interval := interval, expiration := now, notified := true }

/-! Relay, from src/tcspecial/src/relay.rs (the `crate::relay` module consumed
by src/tcsspecial/src/dh.rs). Thread handle and mpsc channels are opaque OS
resources; the model keeps the configuration, the fds, the thread's statistics
counters, and the outcome the OS will deliver when the relay thread is joined. -/

/-- Direction of data flow, src/tcspecial/src/relay.rs lines 32-38. -/
inductive RelayDirection where
  | GroundToPayload
  | PayloadToGround
deriving Repr, DecidableEq

/-- Relay configuration, src/tcspecial/src/relay.rs lines 41-49. -/
structure RelayConfig where
  direction : RelayDirection
  buffer_size : Nat
  is_stream : Bool
deriving Repr, DecidableEq

/-- Relay state, src/tcspecial/src/relay.rs lines 62-79. `join_ok` is the
oracle for whether handle.join() in Relay::stop succeeds. -/
structure Relay where
  config : RelayConfig
  read_fd : Int
  write_fd : Int
  cmd_write_fd : Int
  stats : Statistics
  join_ok : Bool
deriving Repr, DecidableEq

/-- Relay::new, src/tcspecial/src/relay.rs lines 83-99 (join outcome oracle
defaults to success). -/
def Relay.new (config : RelayConfig) (read_fd write_fd cmd_write_fd : Int) : Relay :=
  { config := config, read_fd := read_fd, write_fd := write_fd
    cmd_write_fd := cmd_write_fd, stats := Statistics.new, join_ok := true }

/-- Relay::stop, src/tcspecial/src/relay.rs lines 159-177: send Stop, write a
0 byte to the command pipe, join the thread; a join failure surfaces as
invalid_state. -/
def Relay.stop (r : Relay) : Except TcsError Unit :=
  if r.join_ok then .ok () else .error (.invalidState "Thread join failed")

/-- Relay::get_stats, src/tcspecial/src/relay.rs lines 180-195: queries the
relay thread's counters over the response channel (modelled by the stats
field; the recv-timeout fallback returns the same cached counters). -/
def Relay.get_stats (r : Relay) : Except TcsError Statistics :=
  .ok r.stats

/-! Configuration, from src/tcsspecial/src/config.rs. -/

/-- DH configuration, src/tcsspecial/src/config.rs lines 64-103. -/
structure DHConfig where
  read_buffer_size : Nat
  write_buffer_size : Nat
  is_stream : Bool
  stream_delay_ms : Option Nat
deriving Repr, DecidableEq

/-- DHConfig default, src/tcsspecial/src/config.rs lines 76-85. -/
def DHConfig.default : DHConfig :=
  { read_buffer_size := 4096, write_buffer_size := 4096
    is_stream := false, stream_delay_ms := none }

/-- DHConfig::stream, src/tcsspecial/src/config.rs lines 88-94. -/
def DHConfig.stream : DHConfig :=
  { DHConfig.default with is_stream := true, stream_delay_ms := some 10 }

/-- DHConfig::datagram, src/tcsspecial/src/config.rs lines 96-102. -/
def DHConfig.datagram : DHConfig :=
  { DHConfig.default with is_stream := false, stream_delay_ms := none }

/-- Main tcspecial configuration, src/tcsspecial/src/config.rs lines 10-25
(the listen address is kept abstract as a Nat). -/
structure TcspecialConfig where
  listen_addr : Nat
  beacon_interval : Nat
  max_data_handlers : Nat
  command_queue_size : Nat
  telemetry_queue_size : Nat
deriving Repr, DecidableEq

/-- TcspecialConfig default, src/tcsspecial/src/config.rs lines 27-39
(beacon_interval default is BeaconTime::default() = 10000 ms,
max_data_handlers default is 8). -/
def TcspecialConfig.default : TcspecialConfig :=
  { listen_addr := 0, beacon_interval := 10000, max_data_handlers := 8
    command_queue_size := 16, telemetry_queue_size := 64 }

/-! Data handler, from src/tcsspecial/src/dh.rs. -/

/-- State of a data handler, src/tcsspecial/src/dh.rs lines 15-23. -/
inductive DHState where
  | Created
  | Active
  | Stopped
deriving Repr, DecidableEq

/-- DataHandler, src/tcsspecial/src/dh.rs lines 26-49. File descriptors are
modelled as Int. -/
structure DataHandler where
  id : Nat
  dh_type : DHType
  name : String
  state : DHState
  config : DHConfig
  ground_to_payload : Option Relay
  payload_to_ground : Option Relay
  oc_socket : Option Int
  payload_fd : Option Int
  cmd_pipe : Option (Int × Int)
  stats : Statistics
deriving Repr, DecidableEq

/-- DataHandler::new, src/tcsspecial/src/dh.rs lines 52-67. -/
def DataHandler.new (id : Nat) (dh_type : DHType) (name : String) (config : DHConfig) :
    DataHandler :=
  { id := id, dh_type := dh_type, name := name, state := .Created, config := config
    ground_to_payload := none, payload_to_ground := none, oc_socket := none
    payload_fd := none, cmd_pipe := none, stats := Statistics.new }

/-- DataHandler::initialize, src/tcsspecial/src/dh.rs lines 90-99: allocate
the command pipe; `pipe` is the oracle for the libc::pipe call (none =
failure). -/
def DataHandler.initialize (dh : DataHandler) (pipe : Option (Int × Int)) :
    Except TcsError DataHandler :=
  match pipe with
  | none => .error (.resourceAllocation "Failed to create command pipe")
  | some fds => .ok { dh with cmd_pipe := some fds }

/-- DataHandler::activate, src/tcsspecial/src/dh.rs lines 102-155. `ocSock`
is the oracle for the OC-side UDP socket setup (bind/connect/set_nonblocking);
`payload` is the oracle for connect_network_payload / open_device_payload
(name parsing errors and socket/open errors both surface here). Relay::start
(src/tcspecial/src/relay.rs lines 102-120) always returns Ok. -/
def DataHandler.activate (dh : DataHandler) (ocSock : Except TcsError Int)
    (payload : Except TcsError Int) : Except TcsError Unit × DataHandler :=
  if dh.state ≠ DHState.Created then
    (.error (.invalidState "DH must be in Created state to activate"), dh)
  else
    match ocSock with
    | .error e => (.error e, dh)
    | .ok oc_fd =>
      let dh1 := { dh with oc_socket := some oc_fd }
      match payload with
      | .error e => (.error e, dh1)
      | .ok pfd =>
        let dh2 := { dh1 with payload_fd := some pfd }
        let cmd_write_fd := (dh2.cmd_pipe.map Prod.snd).getD (-1)
        let g2p := Relay.new
          { direction := .GroundToPayload
            buffer_size := dh2.config.read_buffer_size
            is_stream := dh2.config.is_stream } oc_fd pfd cmd_write_fd
        let p2g := Relay.new
          { direction := .PayloadToGround
            buffer_size := dh2.config.write_buffer_size
            is_stream := dh2.config.is_stream } pfd oc_fd cmd_write_fd
        (.ok (), { dh2 with
          ground_to_payload := some g2p
          payload_to_ground := some p2g
          state := DHState.Active })

/-- Closing step of DataHandler::stop, src/tcsspecial/src/dh.rs lines
228-239: close the payload fd and the pipe's write end, transition to
Stopped. -/
def DataHandler.stopFinish (dh : DataHandler) : Except TcsError Unit × DataHandler :=
  (.ok (), { dh with payload_fd := none, cmd_pipe := none, state := DHState.Stopped })

/-- Second relay-stopping step of DataHandler::stop, src/tcsspecial/src/dh.rs
lines 224-226 (the payload_to_ground relay is taken before stop is called, so
on a stop error the relay has already left the handler). -/
def DataHandler.stopP2G (dh : DataHandler) : Except TcsError Unit × DataHandler :=
  match dh.payload_to_ground with
  | some r =>
    let dh1 := { dh with payload_to_ground := none }
    match Relay.stop r with
    | .error e => (.error e, dh1)
    | .ok _ => DataHandler.stopFinish dh1
  | none => DataHandler.stopFinish dh

/-- DataHandler::stop, src/tcsspecial/src/dh.rs lines 215-240: a no-op on
Stopped; otherwise stop both relays, close the fds, transition to Stopped. -/
def DataHandler.stop (dh : DataHandler) : Except TcsError Unit × DataHandler :=
  if dh.state = DHState.Stopped then (.ok (), dh)
  else
    match dh.ground_to_payload with
    | some r =>
      let dh1 := { dh with ground_to_payload := none }
      match Relay.stop r with
      | .error e => (.error e, dh1)
      | .ok _ => DataHandler.stopP2G dh1
    | none => DataHandler.stopP2G dh

/-- DataHandler::get_stats, src/tcsspecial/src/dh.rs lines 243-263: merge the
write-side counters of the ground_to_payload relay and the read-side counters
of the payload_to_ground relay into a timestamped snapshot. -/
def DataHandler.get_stats (dh : DataHandler) (now : Timestamp) : Statistics :=
  let stats := dh.stats
  let stats :=
    match dh.ground_to_payload with
    | some r =>
      match Relay.get_stats r with
      | .ok rs =>
        { stats with
          bytes_sent := stats.bytes_sent + rs.bytes_sent
          writes_completed := stats.writes_completed + rs.writes_completed
          writes_failed := stats.writes_failed + rs.writes_failed }
      | .error _ => stats
    | none => stats
  let stats :=
    match dh.payload_to_ground with
    | some r =>
      match Relay.get_stats r with
      | .ok rs =>
        { stats with
          bytes_received := stats.bytes_received + rs.bytes_received
          reads_completed := stats.reads_completed + rs.reads_completed
          reads_failed := stats.reads_failed + rs.reads_failed }
      | .error _ => stats
    | none => stats
  Statistics.with_timestamp stats now

/-! DH manager, from src/tcsspecial/src/dh.rs lines 273-376. The registry is
a BTreeMap keyed by DHId, modelled as an association list kept sorted by key;
the mutex is uncontended in the single-threaded CI model and lock poisoning
cannot occur. -/

/-- Sorted-insert into the key-ordered registry (BTreeMap::insert for a key
not already present). -/
def registryInsert (id : Nat) (dh : DataHandler) :
    List (Nat × DataHandler) → List (Nat × DataHandler)
  | [] => [(id, dh)]
  | (k, v) :: rest =>
    if id < k then (id, dh) :: (k, v) :: rest
    else (k, v) :: registryInsert id dh rest

/-- BTreeMap::contains_key. -/
def registryContains (handlers : List (Nat × DataHandler)) (id : Nat) : Bool :=
  handlers.any (fun p => p.1 = id)

/-- BTreeMap::get. -/
def registryFind (handlers : List (Nat × DataHandler)) (id : Nat) : Option DataHandler :=
  match handlers.find? (fun p => p.1 = id) with
  | some p => some p.2
  | none => none

/-- In-place update of the entry at a key (what get_mut plus mutation does). -/
def registryUpdate (handlers : List (Nat × DataHandler)) (id : Nat) (dh : DataHandler) :
    List (Nat × DataHandler) :=
  handlers.map (fun p => if p.1 = id then (id, dh) else p)

/-- DHManager, src/tcsspecial/src/dh.rs lines 273-287. -/
structure DHManager where
  handlers : List (Nat × DataHandler)
  max_handlers : Nat
deriving Repr, DecidableEq

/-- DHManager::new, src/tcsspecial/src/dh.rs lines 281-287. -/
def DHManager.new (max_handlers : Nat) : DHManager :=
  { handlers := [], max_handlers := max_handlers }

/-- DHManager::create_dh, src/tcsspecial/src/dh.rs lines 290-316: reject a
duplicate id with DHAlreadyExists, then reject a full registry with
ResourceAllocationFailed, then allocate the handler's command pipe (oracle
`pipe`) and insert. -/
def DHManager.create_dh (m : DHManager) (id : Nat) (dh_type : DHType) (name : String)
    (config : DHConfig) (pipe : Option (Int × Int)) : Except TcsError Unit × DHManager :=
  if registryContains m.handlers id then
    (.error (.command .DHAlreadyExists "DH already exists"), m)
  else if m.handlers.length ≥ m.max_handlers then
    (.error (.resourceAllocation "Maximum number of DHs reached"), m)
  else
    match DataHandler.initialize (DataHandler.new id dh_type name config) pipe with
    | .error e => (.error e, m)
    | .ok dh => (.ok (), { m with handlers := registryInsert id dh m.handlers })

/-- DHManager::activate_dh, src/tcsspecial/src/dh.rs lines 319-330. -/
def DHManager.activate_dh (m : DHManager) (id : Nat) (ocSock : Except TcsError Int)
    (payload : Except TcsError Int) : Except TcsError Unit × DHManager :=
  match registryFind m.handlers id with
  | none => (.error (.command .DHNotFound "DH not found"), m)
  | some dh =>
    let (r, dh1) := DataHandler.activate dh ocSock payload
    (r, { m with handlers := registryUpdate m.handlers id dh1 })

/-- DHManager::stop_dh, src/tcsspecial/src/dh.rs lines 333-344. -/
def DHManager.stop_dh (m : DHManager) (id : Nat) : Except TcsError Unit × DHManager :=
  match registryFind m.handlers id with
  | none => (.error (.command .DHNotFound "DH not found"), m)
  | some dh =>
    let (r, dh1) := DataHandler.stop dh
    (r, { m with handlers := registryUpdate m.handlers id dh1 })

/-- DHManager::get_dh_stats, src/tcsspecial/src/dh.rs lines 347-358. -/
def DHManager.get_dh_stats (m : DHManager) (id : Nat) (now : Timestamp) :
    Except TcsError Statistics :=
  match registryFind m.handlers id with
  | none => .error (.command .DHNotFound "DH not found")
  | some dh => .ok (DataHandler.get_stats dh now)

/-! Command interpreter, from src/tcsspecial/src/ci.rs. The Instant clock is
modelled as Nat milliseconds; `Env` carries the clock readings and the OS
oracles one command dispatch can consume. -/

/-- Arm window duration in seconds, src/tcsspecial/src/ci.rs line 22. -/
def ARM_WINDOW_SECS : Nat := 60

/-- TcsError matching of `TcsError::Command { .. }` (used by handle_stop_dh). -/
def TcsError.isCommand : TcsError → Bool
  | .command _ _ => true
  | _ => false

/-- CommandInterpreter state, src/tcsspecial/src/ci.rs lines 25-42: arm state
(key and arm Instant), beacon interval, last beacon Instant, running flag, DH
manager, and the configuration (whose beacon_interval field handle_config also
updates and whose beacon_duration the run loop consults). -/
structure CIState where
  config : TcspecialConfig
  arm_state : Option (Nat × Nat)
  beacon_interval : Nat
  last_beacon : Nat
  running : Bool
  dh_manager : DHManager
deriving Repr, DecidableEq

/-- Clock readings and OS oracles consumed while processing one command:
`now` is Instant::now() in ms, `nowTs` is Timestamp::now(), `pipe` is the
libc::pipe outcome for DataHandler::initialize, `ocSock` and `payload` the
socket/open outcomes for DataHandler::activate. -/
structure Env where
  now : Nat
  nowTs : Timestamp
  pipe : Option (Int × Int)
  ocSock : Except TcsError Int
  payload : Except TcsError Int
deriving Repr, DecidableEq

/-- handle_ping, src/tcsspecial/src/ci.rs lines 143-145: reply with the
command's sequence and Timestamp::now() (status Success per the spec-modelled
constructor shape). -/
def handle_ping (cmd : PingCommand) (s : CIState) (env : Env) : Telemetry × CIState :=
  (Telemetry.Ping (PingTelemetry.new cmd.sequence .success env.nowTs), s)

/-- handle_restart_arm, src/tcsspecial/src/ci.rs lines 148-152: store
(key, Instant::now()) and reply Success. -/
def handle_restart_arm (cmd : RestartArmCommand) (s : CIState) (env : Env) :
    Telemetry × CIState :=
  (Telemetry.RestartArm (RestartArmTelemetry.success cmd.sequence),
   { s with arm_state := some (cmd.arm_key, env.now) })

/-- handle_restart, src/tcsspecial/src/ci.rs lines 155-188: not armed →
RestartNotArmed; window expired (elapsed > 60 s) → clear arm state, reply
ArmWindowExpired; key mismatch → reply InvalidArmKey with the arm state
retained; key match within the window → clear arm state, clear the running
flag, reply Success. -/
def handle_restart (cmd : RestartCommand) (s : CIState) (env : Env) :
    Telemetry × CIState :=
  match s.arm_state with
  | some (stored_key, arm_time) =>
    if env.now - arm_time > ARM_WINDOW_SECS * 1000 then
      (Telemetry.Restart (RestartTelemetry.failure cmd.sequence .ArmWindowExpired),
       { s with arm_state := none })
    else if stored_key ≠ cmd.arm_key then
      (Telemetry.Restart (RestartTelemetry.failure cmd.sequence .InvalidArmKey), s)
    else
      (Telemetry.Restart (RestartTelemetry.success cmd.sequence),
       { s with arm_state := none, running := false })
  | none =>
    (Telemetry.Restart (RestartTelemetry.failure cmd.sequence .RestartNotArmed), s)

/-- handle_start_dh, src/tcsspecial/src/ci.rs lines 191-216: derive the DH
config from the type (Network → datagram, Device → stream), create_dh, then
activate_dh with the datagram's source address as oc_addr; any error is
mapped through to_error_code. -/
def handle_start_dh (cmd : StartDHCommand) (s : CIState) (env : Env) :
    Telemetry × CIState :=
  let config := match cmd.dh_type with
    | .Network => DHConfig.datagram
    | .Device => DHConfig.stream
  match DHManager.create_dh s.dh_manager cmd.dh_id cmd.dh_type cmd.name config env.pipe with
  | (.error e, m1) =>
    (Telemetry.StartDH (StartDHTelemetry.failure cmd.sequence (TcsError.to_error_code e)),
     { s with dh_manager := m1 })
  | (.ok _, m1) =>
    match DHManager.activate_dh m1 cmd.dh_id env.ocSock env.payload with
    | (.error e, m2) =>
      (Telemetry.StartDH (StartDHTelemetry.failure cmd.sequence (TcsError.to_error_code e)),
       { s with dh_manager := m2 })
    | (.ok _, m2) =>
      (Telemetry.StartDH (StartDHTelemetry.success cmd.sequence),
       { s with dh_manager := m2 })

/-- handle_stop_dh, src/tcsspecial/src/ci.rs lines 219-233: stop_dh; Ok →
Success; a TcsError::Command error (such as DHNotFound) → Success for
idempotency; any other error → failure with the mapped code. -/
def handle_stop_dh (cmd : StopDHCommand) (s : CIState) : Telemetry × CIState :=
  match DHManager.stop_dh s.dh_manager cmd.dh_id with
  | (.ok _, m1) =>
    (Telemetry.StopDH (StopDHTelemetry.success cmd.sequence), { s with dh_manager := m1 })
  | (.error e, m1) =>
    if TcsError.isCommand e then
      (Telemetry.StopDH (StopDHTelemetry.success cmd.sequence), { s with dh_manager := m1 })
    else
      (Telemetry.StopDH (StopDHTelemetry.failure cmd.sequence (TcsError.to_error_code e)),
       { s with dh_manager := m1 })

/-- handle_query_dh, src/tcsspecial/src/ci.rs lines 236-243: get_dh_stats;
Ok → Success with the statistics, error → failure with the mapped code. -/
def handle_query_dh (cmd : QueryDHCommand) (s : CIState) (env : Env) :
    Telemetry × CIState :=
  match DHManager.get_dh_stats s.dh_manager cmd.dh_id env.nowTs with
  | .ok stats => (Telemetry.QueryDH (QueryDHTelemetry.success cmd.sequence stats), s)
  | .error e =>
    (Telemetry.QueryDH (QueryDHTelemetry.failure cmd.sequence (TcsError.to_error_code e)), s)

/-- handle_config, src/tcsspecial/src/ci.rs lines 246-255: when
beacon_interval is present, copy it into both the CI field and the config
field; reply Success. -/
def handle_config (cmd : ConfigCommand) (s : CIState) : Telemetry × CIState :=
  let s1 := match cmd.beacon_interval with
    | some interval =>
      { s with beacon_interval := interval
               config := { s.config with beacon_interval := interval } }
    | none => s
  (Telemetry.Config (ConfigTelemetry.success cmd.sequence), s1)

/-- handle_config_dh, src/tcsspecial/src/ci.rs lines 258-262: no-op, reply
Success. -/
def handle_config_dh (cmd : ConfigDHCommand) (s : CIState) : Telemetry × CIState :=
  (Telemetry.ConfigDH (ConfigDHTelemetry.success cmd.sequence), s)

/-- process_command dispatch, src/tcsspecial/src/ci.rs lines 129-140. -/
def process_command (cmd : Command) (s : CIState) (env : Env) : Telemetry × CIState :=
  match cmd with
  | .Ping c => handle_ping c s env
  | .RestartArm c => handle_restart_arm c s env
  | .Restart c => handle_restart c s env
  | .StartDH c => handle_start_dh c s env
  | .StopDH c => handle_stop_dh c s
  | .QueryDH c => handle_query_dh c s env
  | .Config c => handle_config c s
  | .ConfigDH c => handle_config_dh c s

/-- Result of one main-loop iteration: the successor state, the reply
telemetry sent back (with its destination address), and whether send_beacon
was invoked this iteration. -/
structure RunIterResult where
  state : CIState
  sent : List (Telemetry × Nat)
  beaconFired : Bool
deriving Repr, DecidableEq

/-- One iteration of the CommandInterpreter main loop, src/tcsspecial/src/ci.rs
lines 78-91: when a command was received and decoded (`recv` carries it with
its source address), process it and send exactly one reply telemetry back to
that source; then, if last_beacon.elapsed() has reached the configured beacon
duration, invoke send_beacon and reset last_beacon. -/
def run_iter (s : CIState) (recv : Option (Command × Nat)) (env : Env) : RunIterResult :=
  let (s1, sent) :=
    match recv with
    | some (cmd, src) =>
      let (resp, s1) := process_command cmd s env
      (s1, [(resp, src)])
    | none => (s, [])
  if env.now - s1.last_beacon ≥ s1.config.beacon_interval then
    { state := { s1 with last_beacon := env.now }, sent := sent, beaconFired := true }
  else
    { state := s1, sent := sent, beaconFired := false }

/-- Specification predicate: whether a command is Restart or RestartArm (the
only commands that touch the arm state). -/
def Command.isRestartKind : Command → Bool
  | .Restart _ => true
  | .RestartArm _ => true
  | _ => false

/-- Concrete data handler used by registry witnesses. -/
def dhStub : DataHandler := DataHandler.new 0 .Network "127.0.0.1:5003" DHConfig.datagram

/-! Theorems. -/

/-- C7 counterexample: the claim says every endpoint variant translates a
WouldBlock failure into Ok(0), but the device endpoint returns it as an I/O
error: DeviceEndpoint read and write on a WouldBlock outcome produce
Err(TcsError::Io), not Ok(0). -/
theorem c7_counterexample :
    DeviceEndpoint.read (.err .wouldBlock) = .error (.io .wouldBlock) ∧
    DeviceEndpoint.write (.err .wouldBlock) = .error (.io .wouldBlock) ∧
    DeviceEndpoint.read (.err .wouldBlock) ≠ .ok 0 ∧
    DeviceEndpoint.write (.err .wouldBlock) ≠ .ok 0 := by
  decide

/-- C7 amended: the UDP and TCP endpoints translate a WouldBlock failure of
the underlying I/O operation into Ok(0), but the device endpoint propagates
WouldBlock (like any other error) as Err(TcsError::Io). -/
theorem c7_amended_wouldblock_translation :
    UdpEndpoint.read (.err .wouldBlock) = .ok 0 ∧
    UdpEndpoint.write (.err .wouldBlock) = .ok 0 ∧
    TcpEndpoint.read true (.err .wouldBlock) = .ok 0 ∧
    TcpEndpoint.write true (.err .wouldBlock) = .ok 0 ∧
    DeviceEndpoint.read (.err .wouldBlock) = .error (.io .wouldBlock) ∧
    DeviceEndpoint.write (.err .wouldBlock) = .error (.io .wouldBlock) := by
  decide

/-- C5 counterexample: an iteration in which the read returns 4 bytes and the
(stream) writer accepts only 2 performs exactly one write, reports no writer
error, and ends the iteration having delivered only 2 of the 4 bytes: the
conduit does not keep writing until the full chunk is written or the writer
errors. -/
theorem c5_counterexample :
    let r := conduitStep
      { wait := .ok .IoReady, cmd_byte := 1, read := .ok [1, 2, 3, 4], write := .ok 2 }
      Statistics.new
    r.writes = [([1, 2, 3, 4], .ok 2)] ∧
    writtenTotal r.writes = 2 ∧
    ¬(writtenTotal r.writes = 4 ∨ anyWriteErr r.writes = true) ∧
    r.control = .next := by
  decide

/-- C5 amended: for every relay iteration in which the read returns a
non-empty chunk, the conduit performs exactly one write whose payload is the
full chunk (bytes of one read are passed contiguously and in order); on a
successful write of w bytes it adds only w to bytes_sent and discards any
unwritten remainder (there is no loop until all n bytes are written), on a
writer error it increments writes_failed and sends nothing, and in either
case the loop continues. -/
theorem c5_amended_single_write_per_read (stats : Statistics) (chunk : List Nat)
    (b w : Nat) (e : TcsError) (hne : chunk ≠ []) :
    (conduitStep { wait := .ok .IoReady, cmd_byte := b, read := .ok chunk,
                   write := .ok w } stats).writes = [(chunk, .ok w)] ∧
    (conduitStep { wait := .ok .IoReady, cmd_byte := b, read := .ok chunk,
                   write := .ok w } stats).stats.bytes_sent = stats.bytes_sent + w ∧
    (conduitStep { wait := .ok .IoReady, cmd_byte := b, read := .ok chunk,
                   write := .ok w } stats).stats.writes_completed = stats.writes_completed + 1 ∧
    (conduitStep { wait := .ok .IoReady, cmd_byte := b, read := .ok chunk,
                   write := .ok w } stats).control = .next ∧
    (conduitStep { wait := .ok .IoReady, cmd_byte := b, read := .ok chunk,
                   write := .error e } stats).writes = [(chunk, .error e)] ∧
    (conduitStep { wait := .ok .IoReady, cmd_byte := b, read := .ok chunk,
                   write := .error e } stats).stats.writes_failed = stats.writes_failed + 1 ∧
    (conduitStep { wait := .ok .IoReady, cmd_byte := b, read := .ok chunk,
                   write := .error e } stats).stats.bytes_sent = stats.bytes_sent ∧
    (conduitStep { wait := .ok .IoReady, cmd_byte := b, read := .ok chunk,
                   write := .error e } stats).control = .next := by
  cases chunk with
  | nil => exact absurd rfl hne
  | cons x xs => simp [conduitStep]

/-- C5 amended witness: the amended theorem evaluated at a concrete 3-byte
read with a 1-byte short write and at a concrete writer error. -/
theorem c5_amended_witness :
    (conduitStep { wait := .ok .IoReady, cmd_byte := 0, read := .ok [7, 8, 9],
                   write := .ok 1 } Statistics.new).writes = [([7, 8, 9], .ok 1)] ∧
    (conduitStep { wait := .ok .IoReady, cmd_byte := 0, read := .ok [7, 8, 9],
                   write := .error .timeout } Statistics.new).stats.writes_failed = 1 := by
  have h := c5_amended_single_write_per_read Statistics.new [7, 8, 9] 0 1 .timeout
    (by decide)
  exact ⟨h.1, by rw [h.2.2.2.2.2.1]; rfl⟩

/-- C6: the conduit loop body never breaks because of a data-path read or
write error: an iteration breaks exactly when the wait fails, the wait
returns Error, or the command pipe (CommandPending or Both) yields byte 0; a
failed read increments reads_failed and continues; a failed write (after a
non-empty read) increments writes_failed and continues. -/
theorem c6_loop_exit_conditions (env : ConduitEnv) (stats : Statistics) :
    ((conduitStep env stats).control = .brk ↔
      (env.wait = .ok .Error ∨ (∃ e, env.wait = .error e) ∨
       ((env.wait = .ok .CommandPending ∨ env.wait = .ok .Both) ∧ env.cmd_byte = 0))) ∧
    (∀ e, env.wait = .ok .IoReady → env.read = .error e →
      (conduitStep env stats).stats.reads_failed = stats.reads_failed + 1 ∧
      (conduitStep env stats).control = .next) ∧
    (∀ chunk e, env.wait = .ok .IoReady → env.read = .ok chunk → chunk ≠ [] →
      env.write = .error e →
      (conduitStep env stats).stats.writes_failed = stats.writes_failed + 1 ∧
      (conduitStep env stats).control = .next) := by
  obtain ⟨wait, cb, rd, wr⟩ := env
  refine ⟨?_, ?_, ?_⟩
  · cases wait with
    | error e => simp [conduitStep]
    | ok w =>
      cases w with
      | IoReady =>
        cases rd with
        | error e => simp [conduitStep]
        | ok chunk =>
          cases chunk with
          | nil => simp [conduitStep]
          | cons x xs => cases wr <;> simp [conduitStep]
      | CommandPending => by_cases hc : cb = 0 <;> simp [conduitStep, hc]
      | Both => by_cases hc : cb = 0 <;> simp [conduitStep, hc]
      | Timeout => simp [conduitStep]
      | Error => simp [conduitStep]
  · intro e hw hr
    subst hw; subst hr
    simp [conduitStep]
  · intro chunk e hw hr hne hwr
    subst hw; subst hr; subst hwr
    cases chunk with
    | nil => exact absurd rfl hne
    | cons x xs => simp [conduitStep]

/-- C6 witness: the exit characterization and the error accounting evaluated
at concrete iterations: a stop byte breaks, a wait Error breaks, a read error
continues with reads_failed bumped, a write error continues with
writes_failed bumped. -/
theorem c6_witness :
    (conduitStep { wait := .ok .CommandPending, cmd_byte := 0, read := .ok [],
                   write := .ok 0 } Statistics.new).control = .brk ∧
    (conduitStep { wait := .ok .Error, cmd_byte := 1, read := .ok [],
                   write := .ok 0 } Statistics.new).control = .brk ∧
    (conduitStep { wait := .ok .IoReady, cmd_byte := 1, read := .error .timeout,
                   write := .ok 0 } Statistics.new).stats.reads_failed = 1 ∧
    (conduitStep { wait := .ok .IoReady, cmd_byte := 1, read := .error .timeout,
                   write := .ok 0 } Statistics.new).control = .next ∧
    (conduitStep { wait := .ok .IoReady, cmd_byte := 1, read := .ok [5],
                   write := .error .timeout } Statistics.new).control = .next := by
  have h1 := c6_loop_exit_conditions
    { wait := .ok .CommandPending, cmd_byte := 0, read := .ok [], write := .ok 0 }
    Statistics.new
  have h2 := c6_loop_exit_conditions
    { wait := .ok .Error, cmd_byte := 1, read := .ok [], write := .ok 0 } Statistics.new
  have h3 := c6_loop_exit_conditions
    { wait := .ok .IoReady, cmd_byte := 1, read := .error .timeout, write := .ok 0 }
    Statistics.new
  have h4 := c6_loop_exit_conditions
    { wait := .ok .IoReady, cmd_byte := 1, read := .ok [5], write := .error .timeout }
    Statistics.new
  have h3e := h3.2.1 .timeout rfl rfl
  have h4e := h4.2.2 [5] .timeout rfl rfl (by decide) rfl
  refine ⟨h1.1.mpr (Or.inr (Or.inr ⟨Or.inl rfl, rfl⟩)), h2.1.mpr (Or.inl rfl), ?_, h3e.2, h4e.2⟩
  rw [h3e.1]; rfl

/-- C1: for every command datagram the CI receives that decodes successfully,
one main-loop iteration emits exactly one reply telemetry, addressed to the
datagram's source address, and for every command variant the reply's sequence
number equals the received command's sequence number. -/
theorem c1_one_reply_with_echoed_sequence (s : CIState) (cmd : Command) (src : Nat)
    (env : Env) :
    (run_iter s (some (cmd, src)) env).sent = [((process_command cmd s env).1, src)] ∧
    Telemetry.sequence (process_command cmd s env).1 = Command.sequence cmd := by
  constructor
  · rcases hp : process_command cmd s env with ⟨resp, s1⟩
    simp only [run_iter, hp]
    split <;> rfl
  · cases cmd with
    | Ping c => rfl
    | RestartArm c => rfl
    | Restart c =>
      simp only [process_command, handle_restart]
      rcases s.arm_state with _ | ⟨k, t⟩
      · rfl
      · by_cases h1 : env.now - t > ARM_WINDOW_SECS * 1000
        · simp only [if_pos h1]; rfl
        · by_cases h2 : k ≠ c.arm_key
          · simp only [if_neg h1, if_pos h2]; rfl
          · simp only [if_neg h1, if_neg h2]; rfl
    | StartDH c =>
      simp only [process_command, handle_start_dh]
      rcases h1 : DHManager.create_dh s.dh_manager c.dh_id c.dh_type c.name
          (match c.dh_type with | .Network => DHConfig.datagram | .Device => DHConfig.stream)
          env.pipe with ⟨r1, m1⟩
      cases r1 with
      | error e => simp only [h1]; rfl
      | ok u =>
        rcases h2 : DHManager.activate_dh m1 c.dh_id env.ocSock env.payload with ⟨r2, m2⟩
        cases r2 with
        | error e => simp only [h1, h2]; rfl
        | ok v => simp only [h1, h2]; rfl
    | StopDH c =>
      simp only [process_command, handle_stop_dh]
      rcases h1 : DHManager.stop_dh s.dh_manager c.dh_id with ⟨r1, m1⟩
      cases r1 with
      | error e =>
        by_cases h2 : TcsError.isCommand e
        · simp only [h1, if_pos h2]; rfl
        · simp only [h1, if_neg h2]; rfl
      | ok u => simp only [h1]; rfl
    | QueryDH c =>
      simp only [process_command, handle_query_dh]
      rcases h1 : DHManager.get_dh_stats s.dh_manager c.dh_id env.nowTs with st | e
      · simp only [h1]; rfl
      · simp only [h1]; rfl
    | Config c => rfl
    | ConfigDH c => rfl

/-- C2: a Restart carrying the armed key, processed while the arm instant is
within the 60 s window, replies Success, clears the arm state, and clears the
running flag (so the main loop's while-running condition fails and the loop
exits). -/
theorem c2_restart_success_clears_and_stops (s : CIState) (cmd : RestartCommand)
    (env : Env) (k t : Nat) (harm : s.arm_state = some (k, t))
    (hwin : env.now - t ≤ ARM_WINDOW_SECS * 1000) (hkey : cmd.arm_key = k) :
    process_command (.Restart cmd) s env =
      (Telemetry.Restart (RestartTelemetry.success cmd.sequence),
       { s with arm_state := none, running := false }) := by
  simp only [process_command, handle_restart, harm]
  rw [if_neg (by omega), if_neg (by simp [hkey])]

/-- C2 witness: the theorem evaluated at a state armed with key 5 at instant
100 ms, for a Restart with key 5 at instant 200 ms. -/
theorem c2_witness :
    process_command (.Restart { sequence := 11, arm_key := 5 })
      { config := TcspecialConfig.default, arm_state := some (5, 100),
        beacon_interval := 10000, last_beacon := 0, running := true,
        dh_manager := DHManager.new 8 }
      { now := 200, nowTs := ⟨0, 0⟩, pipe := none, ocSock := .error .timeout,
        payload := .error .timeout } =
      (Telemetry.Restart (RestartTelemetry.success 11),
       { config := TcspecialConfig.default, arm_state := none,
         beacon_interval := 10000, last_beacon := 0, running := false,
         dh_manager := DHManager.new 8 }) := by
  exact c2_restart_success_clears_and_stops _ _ _ 5 100 rfl (by decide) rfl

/-- C3 counterexample: the claim implies that every Restart replying with a
failure status leaves the arm state absent, but a Restart with a mismatched
key inside the window replies Failure(InvalidArmKey) and retains the arm
state: from a state armed with key 5, Restart with key 7 at 1 s leaves the
arm state present. -/
theorem c3_counterexample :
    let s0 : CIState :=
      { config := TcspecialConfig.default, arm_state := some (5, 0),
        beacon_interval := 10000, last_beacon := 0, running := true,
        dh_manager := DHManager.new 8 }
    let env0 : Env :=
      { now := 1000, nowTs := ⟨0, 0⟩, pipe := none,
        ocSock := .error .timeout, payload := .error .timeout }
    Telemetry.status (process_command (.Restart { sequence := 1, arm_key := 7 }) s0 env0).1 =
      .failure .InvalidArmKey ∧
    ((process_command (.Restart { sequence := 1, arm_key := 7 }) s0 env0).2).arm_state =
      some (5, 0) := by
  decide

/-- C3 amended: the arm state is present iff a RestartArm has been accepted
since the most recent event that clears it, and only a Restart replying
Success or a Restart replying Failure(ArmWindowExpired) clears it: RestartArm
stores (key, now); a Restart after window expiry clears the arm state and
replies ArmWindowExpired; a Restart with a mismatched key inside the window
replies InvalidArmKey and RETAINS the arm state; a Restart with the matching
key inside the window clears it and replies Success; a Restart while unarmed
replies RestartNotArmed and the state stays absent; every other command
leaves the arm state unchanged. -/
theorem c3_amended_arm_state_transitions (s : CIState) (env : Env)
    (rc : RestartCommand) (ra : RestartArmCommand) (c : Command) :
    ((process_command (.RestartArm ra) s env).2.arm_state = some (ra.arm_key, env.now)) ∧
    (∀ k t, s.arm_state = some (k, t) → env.now - t > ARM_WINDOW_SECS * 1000 →
      (process_command (.Restart rc) s env).2.arm_state = none ∧
      Telemetry.status (process_command (.Restart rc) s env).1 =
        .failure .ArmWindowExpired) ∧
    (∀ k t, s.arm_state = some (k, t) → env.now - t ≤ ARM_WINDOW_SECS * 1000 →
      k ≠ rc.arm_key →
      (process_command (.Restart rc) s env).2.arm_state = some (k, t) ∧
      Telemetry.status (process_command (.Restart rc) s env).1 =
        .failure .InvalidArmKey) ∧
    (∀ k t, s.arm_state = some (k, t) → env.now - t ≤ ARM_WINDOW_SECS * 1000 →
      k = rc.arm_key →
      (process_command (.Restart rc) s env).2.arm_state = none ∧
      Telemetry.status (process_command (.Restart rc) s env).1 = .success) ∧
    (s.arm_state = none →
      (process_command (.Restart rc) s env).2.arm_state = none ∧
      Telemetry.status (process_command (.Restart rc) s env).1 =
        .failure .RestartNotArmed) ∧
    (Command.isRestartKind c = false →
      (process_command c s env).2.arm_state = s.arm_state) := by
  refine ⟨rfl, ?_, ?_, ?_, ?_, ?_⟩
  · intro k t harm hexp
    have h : process_command (.Restart rc) s env =
        (Telemetry.Restart (RestartTelemetry.failure rc.sequence .ArmWindowExpired),
         { s with arm_state := none }) := by
      simp only [process_command, handle_restart, harm, if_pos hexp]
    rw [h]
    exact ⟨rfl, rfl⟩
  · intro k t harm hwin hne
    have h : process_command (.Restart rc) s env =
        (Telemetry.Restart (RestartTelemetry.failure rc.sequence .InvalidArmKey), s) := by
      simp only [process_command, handle_restart, harm]
      rw [if_neg (by omega), if_pos hne]
    rw [h]
    exact ⟨harm, rfl⟩
  · intro k t harm hwin heq
    have h : process_command (.Restart rc) s env =
        (Telemetry.Restart (RestartTelemetry.success rc.sequence),
         { s with arm_state := none, running := false }) := by
      simp only [process_command, handle_restart, harm]
      rw [if_neg (by omega), if_neg (by omega)]
    rw [h]
    exact ⟨rfl, rfl⟩
  · intro harm
    have h : process_command (.Restart rc) s env =
        (Telemetry.Restart (RestartTelemetry.failure rc.sequence .RestartNotArmed), s) := by
      simp only [process_command, handle_restart, harm]
    rw [h]
    exact ⟨harm, rfl⟩
  · intro hk
    cases c with
    | Ping cc => rfl
    | RestartArm cc => simp [Command.isRestartKind] at hk
    | Restart cc => simp [Command.isRestartKind] at hk
    | StartDH cc =>
      simp only [process_command, handle_start_dh]
      rcases h1 : DHManager.create_dh s.dh_manager cc.dh_id cc.dh_type cc.name
          (match cc.dh_type with | .Network => DHConfig.datagram | .Device => DHConfig.stream)
          env.pipe with ⟨r1, m1⟩
      cases r1 with
      | error e => simp only [h1]
      | ok u =>
        rcases h2 : DHManager.activate_dh m1 cc.dh_id env.ocSock env.payload with ⟨r2, m2⟩
        cases r2 with
        | error e => simp only [h1, h2]
        | ok v => simp only [h1, h2]
    | StopDH cc =>
      simp only [process_command, handle_stop_dh]
      rcases h1 : DHManager.stop_dh s.dh_manager cc.dh_id with ⟨r1, m1⟩
      cases r1 with
      | error e =>
        by_cases h2 : TcsError.isCommand e
        · simp only [h1, if_pos h2]
        · simp only [h1, if_neg h2]
      | ok u => simp only [h1]
    | QueryDH cc =>
      simp only [process_command, handle_query_dh]
      rcases h1 : DHManager.get_dh_stats s.dh_manager cc.dh_id env.nowTs with st | e
      · simp only [h1]
      · simp only [h1]
    | Config cc =>
      simp only [process_command, handle_config]
      rcases cc.beacon_interval with _ | iv <;> rfl
    | ConfigDH cc => rfl

/-- C3 amended witness: the InvalidArmKey retention and the matching-key
clearing conjuncts of the amended theorem, evaluated at a state armed with
key 5 at instant 0 and Restarts at 1 s. -/
theorem c3_amended_witness :
    ((process_command (.Restart { sequence := 1, arm_key := 7 })
      { config := TcspecialConfig.default, arm_state := some (5, 0),
        beacon_interval := 10000, last_beacon := 0, running := true,
        dh_manager := DHManager.new 8 }
      { now := 1000, nowTs := ⟨0, 0⟩, pipe := none, ocSock := .error .timeout,
        payload := .error .timeout }).2).arm_state = some (5, 0) ∧
    ((process_command (.Restart { sequence := 2, arm_key := 5 })
      { config := TcspecialConfig.default, arm_state := some (5, 0),
        beacon_interval := 10000, last_beacon := 0, running := true,
        dh_manager := DHManager.new 8 }
      { now := 1000, nowTs := ⟨0, 0⟩, pipe := none, ocSock := .error .timeout,
        payload := .error .timeout }).2).arm_state = none := by
  have h1 := c3_amended_arm_state_transitions
    { config := TcspecialConfig.default, arm_state := some (5, 0),
      beacon_interval := 10000, last_beacon := 0, running := true,
      dh_manager := DHManager.new 8 }
    { now := 1000, nowTs := ⟨0, 0⟩, pipe := none, ocSock := .error .timeout,
      payload := .error .timeout }
    { sequence := 1, arm_key := 7 } { sequence := 0, arm_key := 0 } (.Ping { sequence := 0 })
  have h2 := c3_amended_arm_state_transitions
    { config := TcspecialConfig.default, arm_state := some (5, 0),
      beacon_interval := 10000, last_beacon := 0, running := true,
      dh_manager := DHManager.new 8 }
    { now := 1000, nowTs := ⟨0, 0⟩, pipe := none, ocSock := .error .timeout,
      payload := .error .timeout }
    { sequence := 2, arm_key := 5 } { sequence := 0, arm_key := 0 } (.Ping { sequence := 0 })
  exact ⟨(h1.2.2.1 5 0 rfl (by decide) (by decide)).1,
         (h2.2.2.2.1 5 0 rfl (by decide) rfl).1⟩

/-- C4 counterexample: processing a Config command with beacon_interval
1000 ms at instant 777 ms, in a state whose last beacon fired at 5 ms,
replies Success and updates the stored interval, but last_beacon (the base
of the loop's beacon deadline) is left at 5, not set to the current instant,
and no beacon fires in that iteration: the next beacon is not immediate. -/
theorem c4_counterexample :
    let s0 : CIState :=
      { config := TcspecialConfig.default, arm_state := none,
        beacon_interval := 10000, last_beacon := 5, running := true,
        dh_manager := DHManager.new 8 }
    let env0 : Env :=
      { now := 777, nowTs := ⟨0, 0⟩, pipe := none,
        ocSock := .error .timeout, payload := .error .timeout }
    let r := run_iter s0 (some (.Config { sequence := 9, beacon_interval := some 1000 }, 42)) env0
    r.sent = [(Telemetry.Config (ConfigTelemetry.success 9), 42)] ∧
    r.state.beacon_interval = 1000 ∧
    r.state.config.beacon_interval = 1000 ∧
    r.state.last_beacon = 5 ∧
    (5 : Nat) ≠ 777 ∧
    r.beaconFired = false := by
  decide

/-- C4 amended: processing a Config command with a present non-zero
beacon_interval updates the CI's stored beacon interval (both the CI field
and the configuration's field, which the main loop's deadline check reads)
and replies Success, while every other CI field — in particular last_beacon,
the base of the beacon deadline — is left unchanged; no beacon driver is
woken (the CI never calls BeaconSend::set_interval, which is the function
that would set the deadline to now and signal the worker so the next beacon
fires immediately). -/
theorem c4_amended_config_updates_interval_only (s : CIState) (cc : ConfigCommand)
    (iv : Nat) (env : Env) (b : BeaconSend) (now2 : Nat)
    (hiv : cc.beacon_interval = some iv) (hnz : iv ≠ 0) :
    process_command (.Config cc) s env =
      (Telemetry.Config (ConfigTelemetry.success cc.sequence),
       { s with beacon_interval := iv,
                config := { s.config with beacon_interval := iv } }) ∧
    BeaconSend.set_interval b iv now2 =
      { b with interval := iv, expiration := now2, notified := true } := by
  constructor
  · simp [process_command, handle_config, hiv]
  · simp [BeaconSend.set_interval, hnz]

/-- C4 amended witness: the amended theorem evaluated at a concrete Config
command with interval 1000 and a concrete beacon driver state. -/
theorem c4_amended_witness :
    process_command (.Config { sequence := 9, beacon_interval := some 1000 })
      { config := TcspecialConfig.default, arm_state := none,
        beacon_interval := 10000, last_beacon := 5, running := true,
        dh_manager := DHManager.new 8 }
      { now := 777, nowTs := ⟨0, 0⟩, pipe := none, ocSock := .error .timeout,
        payload := .error .timeout } =
      (Telemetry.Config (ConfigTelemetry.success 9),
       { config := { TcspecialConfig.default with beacon_interval := 1000 },
         arm_state := none, beacon_interval := 1000, last_beacon := 5,
         running := true, dh_manager := DHManager.new 8 }) ∧
    BeaconSend.set_interval
      { expiration := 500, interval := 10000, dest_addr := 0, notified := false } 1000 777 =
      { expiration := 777, interval := 1000, dest_addr := 0, notified := true } := by
  exact c4_amended_config_updates_interval_only _ _ 1000 _ _ 777 rfl (by decide)

/-- C8: StopDH is idempotent: a StopDH command naming a dh_id that is not in
the registry replies Success (the DHNotFound Command error is mapped to
Success) and leaves the CI state unchanged, and DataHandler::stop on a
handler already in the Stopped state returns Ok without changing the
handler. -/
theorem c8_stopdh_idempotent (s : CIState) (env : Env) (cmd : StopDHCommand)
    (dh : DataHandler)
    (habs : registryFind s.dh_manager.handlers cmd.dh_id = none)
    (hstopped : dh.state = DHState.Stopped) :
    process_command (.StopDH cmd) s env =
      (Telemetry.StopDH (StopDHTelemetry.success cmd.sequence), s) ∧
    DataHandler.stop dh = (.ok (), dh) := by
  constructor
  · simp [process_command, handle_stop_dh, DHManager.stop_dh, habs, TcsError.isCommand]
  · simp [DataHandler.stop, hstopped]

/-- C8 witness: the theorem evaluated at an empty registry with StopDH on
dh_id 3, and a concrete handler in the Stopped state. -/
theorem c8_witness :
    process_command (.StopDH { sequence := 4, dh_id := 3 })
      { config := TcspecialConfig.default, arm_state := none,
        beacon_interval := 10000, last_beacon := 0, running := true,
        dh_manager := DHManager.new 8 }
      { now := 0, nowTs := ⟨0, 0⟩, pipe := none, ocSock := .error .timeout,
        payload := .error .timeout } =
      (Telemetry.StopDH (StopDHTelemetry.success 4),
       { config := TcspecialConfig.default, arm_state := none,
         beacon_interval := 10000, last_beacon := 0, running := true,
         dh_manager := DHManager.new 8 }) ∧
    DataHandler.stop
      { DataHandler.new 1 .Network "127.0.0.1:5003" DHConfig.datagram with
        state := DHState.Stopped } =
      (.ok (),
       { DataHandler.new 1 .Network "127.0.0.1:5003" DHConfig.datagram with
         state := DHState.Stopped }) := by
  exact c8_stopdh_idempotent _ _ _ _ rfl rfl

/-- C9: when the registry already holds max_data_handlers entries (the
default maximum is 8, from TcspecialConfig::default), the next create_dh call
with an id not present in the registry fails with an error mapping to
ResourceAllocationFailed and leaves the registry unchanged. -/
theorem c9_create_dh_full_registry (m : DHManager) (id : Nat) (ty : DHType)
    (nm : String) (cfg : DHConfig) (pipe : Option (Int × Int))
    (habs : registryContains m.handlers id = false)
    (hfull : m.handlers.length = m.max_handlers) :
    DHManager.create_dh m id ty nm cfg pipe =
      (.error (.resourceAllocation "Maximum number of DHs reached"), m) ∧
    TcsError.to_error_code (.resourceAllocation "Maximum number of DHs reached") =
      .ResourceAllocationFailed ∧
    TcspecialConfig.default.max_data_handlers = 8 := by
  refine ⟨?_, rfl, rfl⟩
  simp [DHManager.create_dh, habs, hfull]

/-- C9 witness: a registry with 8 handlers (ids 0-7) and max_handlers 8
rejects create_dh for id 8 with the resource-allocation error. -/
theorem c9_witness :
    DHManager.create_dh
      { handlers := [(0, dhStub), (1, dhStub), (2, dhStub), (3, dhStub),
                     (4, dhStub), (5, dhStub), (6, dhStub), (7, dhStub)],
        max_handlers := 8 }
      8 .Network "127.0.0.1:5009" DHConfig.datagram (some (3, 4)) =
      (.error (.resourceAllocation "Maximum number of DHs reached"),
       { handlers := [(0, dhStub), (1, dhStub), (2, dhStub), (3, dhStub),
                      (4, dhStub), (5, dhStub), (6, dhStub), (7, dhStub)],
         max_handlers := 8 }) := by
  exact (c9_create_dh_full_registry _ 8 _ _ _ _ (by decide) (by decide)).1

/-- C10: DHManager::create_dh checks for a duplicate id before checking
capacity — a create_dh naming an id already present fails with
DHAlreadyExists regardless of how full the registry is (so a full registry
still reports DHAlreadyExists for a present id) — and on every failure path
(duplicate id, capacity reached, or command-pipe allocation failure) the
registry is left unchanged. -/
theorem c10_create_dh_duplicate_first_and_no_mutation (m : DHManager) (id : Nat)
    (ty : DHType) (nm : String) (cfg : DHConfig) (pipe : Option (Int × Int)) :
    (registryContains m.handlers id = true →
      DHManager.create_dh m id ty nm cfg pipe =
        (.error (.command .DHAlreadyExists "DH already exists"), m)) ∧
    (registryContains m.handlers id = false → m.handlers.length < m.max_handlers →
      pipe = none →
      DHManager.create_dh m id ty nm cfg pipe =
        (.error (.resourceAllocation "Failed to create command pipe"), m)) ∧
    (∀ e, (DHManager.create_dh m id ty nm cfg pipe).1 = .error e →
      (DHManager.create_dh m id ty nm cfg pipe).2 = m) := by
  refine ⟨?_, ?_, ?_⟩
  · intro h
    simp [DHManager.create_dh, h]
  · intro h1 h2 h3
    rw [DHManager.create_dh, if_neg (by simp [h1]), if_neg (by omega)]
    simp [h3, DataHandler.initialize]
  · intro e he
    by_cases h1 : registryContains m.handlers id
    · simp [DHManager.create_dh, h1]
    · by_cases h2 : m.handlers.length ≥ m.max_handlers
      · simp [DHManager.create_dh, h1, h2]
      · cases hp : pipe with
        | none => simp [DHManager.create_dh, h1, h2, hp, DataHandler.initialize]
        | some fds =>
          exfalso
          rw [DHManager.create_dh, if_neg (by simp [h1]), if_neg h2] at he
          simp [hp, DataHandler.initialize] at he

/-- C10 witness: a full single-slot registry holding id 0 rejects a duplicate
create_dh(0) with DHAlreadyExists (not ResourceAllocationFailed) leaving the
registry unchanged, and a pipe-allocation failure on an empty registry leaves
it empty. -/
theorem c10_witness :
    DHManager.create_dh { handlers := [(0, dhStub)], max_handlers := 1 }
      0 .Network "127.0.0.1:5003" DHConfig.datagram (some (3, 4)) =
      (.error (.command .DHAlreadyExists "DH already exists"),
       { handlers := [(0, dhStub)], max_handlers := 1 }) ∧
    DHManager.create_dh (DHManager.new 8) 0 .Network "127.0.0.1:5003"
      DHConfig.datagram none =
      (.error (.resourceAllocation "Failed to create command pipe"), DHManager.new 8) := by
  have h1 := c10_create_dh_duplicate_first_and_no_mutation
    { handlers := [(0, dhStub)], max_handlers := 1 } 0 .Network "127.0.0.1:5003"
    DHConfig.datagram (some (3, 4))
  have h2 := c10_create_dh_duplicate_first_and_no_mutation (DHManager.new 8) 0 .Network
    "127.0.0.1:5003" DHConfig.datagram none
  exact ⟨h1.1 (by decide), h2.2.1 (by decide) (by decide) rfl⟩

end Tcs
